import Mathlib

/-!
Shallow embedding of the `cargo-contract` build crate
(`crates/build/src/lib.rs`) and verification of its specification.

The Rust code post-processes a compiled Wasm module (export pruning,
memory-limit enforcement, custom-section stripping, import validation),
scans the compiler subprocess output for one diagnostic signature,
serializes the build result, and orchestrates a fingerprint-based
skip of redundant work.  Machine integers (`u32`) are modelled as `Nat`
(only comparisons and copies occur, no overflow), file-system state is
passed explicitly, and external collaborators (the optimizer, the
linker, the hash function, the import validator living in sibling
modules) are parameters.
-/

set_option maxHeartbeats 1000000

namespace CargoContract

/-! ## Wasm module data model (the fragment of `parity_wasm` the code uses) -/

/-- Rust `parity_wasm::elements::MemoryType`: resizable limits of a memory,
an initial page count and an optional maximum page count. -/
structure MemoryType where
  initial : Nat
  maximum : Option Nat
deriving DecidableEq, Repr

/-- Rust `MemoryType::new(initial, maximum)`. -/
def MemoryType.new (initial : Nat) (maximum : Option Nat) : MemoryType :=
  { initial := initial, maximum := maximum }

/-- Rust `parity_wasm::elements::External`: what an import entry imports. -/
inductive External where
  | function (typeIdx : Nat)
  | table (payload : Nat)
  | memory (memTy : MemoryType)
  | globalEntry (payload : Nat)
deriving DecidableEq, Repr

/-- Rust `parity_wasm::elements::ImportEntry`: module/field names plus
the imported external. -/
structure ImportEntry where
  moduleName : String
  field : String
  external : External
deriving DecidableEq, Repr

/-- Rust `parity_wasm::elements::Internal`: what an export entry refers to. -/
inductive Internal where
  | function (idx : Nat)
  | table (idx : Nat)
  | memory (idx : Nat)
  | globalEntry (idx : Nat)
deriving DecidableEq, Repr

/-- Rust `parity_wasm::elements::ExportEntry`: exported name plus the internal
reference. -/
structure ExportEntry where
  field : String
  internal : Internal
deriving DecidableEq, Repr

/-- Rust `parity_wasm::elements::Section`: the section kinds the build code
distinguishes.  Sections it never inspects are collapsed into payload
variants; `name` is the parsed name section variant (`Section::Name`),
distinct from a generic custom section. -/
inductive Section where
  | typeSection (payload : List Nat)
  | importSection (entries : List ImportEntry)
  | functionSection (payload : List Nat)
  | exportSection (entries : List ExportEntry)
  | codeSection (payload : List Nat)
  | dataSection (payload : List Nat)
  | nameSection (payload : List Nat)
  | custom (name : String) (payload : List Nat)
  | reloc (payload : List Nat)
deriving DecidableEq, Repr

/-- Rust `parity_wasm::elements::Module`: an ordered list of sections. -/
structure Module where
  sections : List Section
deriving DecidableEq, Repr

/-! Observation helpers (the read-side of `import_section_mut` /
`export_section_mut`: `parity_wasm` accessors return the first section
of the given kind). -/

/-- The memory type imported by an entry, if it imports a memory. -/
def ImportEntry.memory_type (e : ImportEntry) : Option MemoryType :=
  match e.external with
  | External.memory memTy => some memTy
  | _ => none

/-- The import entries of a section, when it is an import section. -/
def Section.import_entries : Section → Option (List ImportEntry)
  | Section.importSection entries => some entries
  | _ => none

/-- The export entries of a section, when it is an export section. -/
def Section.export_entries : Section → Option (List ExportEntry)
  | Section.exportSection entries => some entries
  | _ => none

/-- First import section of a section list (`Module::import_section`:
`parity_wasm` accessors return the first section of the kind). -/
def first_import_section : List Section → Option (List ImportEntry)
  | [] => none
  | s :: rest =>
    match s.import_entries with
    | some entries => some entries
    | none => first_import_section rest

/-- First export section of a section list (`Module::export_section`). -/
def first_export_section : List Section → Option (List ExportEntry)
  | [] => none
  | s :: rest =>
    match s.export_entries with
    | some entries => some entries
    | none => first_export_section rest

/-- Rust `entries.iter_mut().find_map(|e| match e.external_mut() {
External::Memory(m) => Some(m), _ => None })`: the first memory entry. -/
def find_memory_type : List ImportEntry → Option MemoryType
  | [] => none
  | e :: rest =>
    match e.external with
    | External.memory memTy => some memTy
    | _ => find_memory_type rest

/-- All memory types imported by the entries, in order (used to state
that a module has a single memory import). -/
def memory_types : List ImportEntry → List MemoryType
  | [] => []
  | e :: rest =>
    match e.external with
    | External.memory memTy => memTy :: memory_types rest
    | _ => memory_types rest

/-- The memory type found by
`import_section_mut().and_then(|s| s.entries_mut().iter_mut().find_map(...))`:
the first memory entry of the first import section. -/
def Module.memory_import (m : Module) : Option MemoryType :=
  (first_import_section m.sections).bind find_memory_type

/-! ## `ensure_maximum_memory_pages` -/

/-- The error message format of the `anyhow::bail!` in
`ensure_maximum_memory_pages`. -/
def pages_error (requested_maximum maximum_allowed_pages : Nat) : String :=
  "The wasm module requires " ++ toString requested_maximum ++
    " pages. The maximum allowed number of pages is " ++
    toString maximum_allowed_pages

/-- The `.context(...)` message attached when no memory import is found. -/
def memory_import_missing_error : String :=
  "Memory import is not found. Is --import-memory specified in the linker args"

/-- Walk the entries of the import section looking for the first memory
entry (`iter_mut().find_map(...)`); `none` when there is no memory entry.
On the first memory entry, perform the check/adjustment of
`ensure_maximum_memory_pages`: an already-declared maximum above the
allowed limit is an error, an in-range one leaves the entry as is, and a
missing one is replaced by `MemoryType::new(initial, Some(allowed))`. -/
def adjust_memory_entry (maximum_allowed_pages : Nat) :
    List ImportEntry → Option (Except String (List ImportEntry))
  | [] => none
  | entry :: rest =>
    match entry.external with
    | External.memory memTy =>
      some (match memTy.maximum with
        | some requested_maximum =>
          if requested_maximum > maximum_allowed_pages then
            Except.error (pages_error requested_maximum maximum_allowed_pages)
          else
            Except.ok (entry :: rest)
        | none =>
          Except.ok ({ entry with
            external := External.memory
              (MemoryType.new memTy.initial (some maximum_allowed_pages)) } :: rest))
    | _ => (adjust_memory_entry maximum_allowed_pages rest).map
        (Except.map (entry :: ·))

/-- Walk the sections to the first import section
(`module.import_section_mut()`) and apply `adjust_memory_entry` there;
`none` when there is no import section or it has no memory entry. -/
def adjust_sections (maximum_allowed_pages : Nat) :
    List Section → Option (Except String (List Section))
  | [] => none
  | s :: rest =>
    match s.import_entries with
    | some entries =>
      (adjust_memory_entry maximum_allowed_pages entries).map
        (Except.map (fun entries' => Section.importSection entries' :: rest))
    | none =>
      (adjust_sections maximum_allowed_pages rest).map
        (Except.map (fun rest' => s :: rest'))

/-- Rust `ensure_maximum_memory_pages`: ensures the Wasm memory import of the
module has a maximum number of pages.  Returns the (possibly adjusted)
module, mirroring the in-place mutation of the Rust code. -/
def ensure_maximum_memory_pages (module : Module)
    (maximum_allowed_pages : Nat) : Except String Module :=
  match adjust_sections maximum_allowed_pages module.sections with
  | none => Except.error memory_import_missing_error
  | some (Except.error e) => Except.error e
  | some (Except.ok sections') => Except.ok { module with sections := sections' }

/-- Rust `DEFAULT_MAX_MEMORY_PAGES`: the default maximum number of pages
available for a contract to allocate. -/
def DEFAULT_MAX_MEMORY_PAGES : Nat := 16

/-! ## `strip_exports` and `strip_custom_sections` -/

/-- The retention predicate of `strip_exports`: the entry is a function
export named `call` or `deploy`. -/
def export_retained (entry : ExportEntry) : Bool :=
  (match entry.internal with
    | Internal.function _ => true
    | _ => false)
  && (entry.field == "call" || entry.field == "deploy")

/-- Apply the export-pruning `retain` to the first export section
(`module.export_section_mut()`), leaving every other section alone. -/
def strip_exports_sections : List Section → List Section
  | [] => []
  | s :: rest =>
    match s.export_entries with
    | some entries =>
      Section.exportSection (entries.filter export_retained) :: rest
    | none => s :: strip_exports_sections rest

/-- Rust `strip_exports`: a contract should export nothing but the `call` and
`deploy` functions. -/
def strip_exports (module : Module) : Module :=
  { module with sections := strip_exports_sections module.sections }

/-- The retention predicate of `strip_custom_sections`:
`Section::Reloc(_) => false`, `Section::Custom(c) if c.name() != "name"
=> false`, `_ => true`. -/
def section_retained (s : Section) : Bool :=
  match s with
  | Section.reloc _ => false
  | Section.custom name _ => name == "name"
  | _ => true

/-- Rust `strip_custom_sections`: strips all relocation sections and all custom
sections other than the name section. -/
def strip_custom_sections (module : Module) : Module :=
  { module with sections := module.sections.filter section_retained }

/-! ## `post_process_wasm`

The on-disk artifact is modelled as a cell `Option Module`: `none` means
the file is absent or unparseable, `some m` means it parses to `m`.
`validate_wasm::validate_import_section` lives in a sibling module and is
passed as a parameter. -/

/-- Rust `load_module`: load and parse a Wasm file from disk;
`parity_wasm::deserialize_file` with the path-naming `.context(...)`. -/
def load_module (disk : Option Module) (path : String) : Except String Module :=
  match disk with
  | some m => Except.ok m
  | none => Except.error ("Loading of wasm module at '" ++ path ++ "' failed")

/-- Rust `post_process_wasm`: performs the required post-processing steps on the
Wasm artifact — load, `strip_exports`, `ensure_maximum_memory_pages`,
`strip_custom_sections`, optional import validation, then serialize back
to the same path.  Returns the outcome together with the new state of the
on-disk artifact (the `?` operator propagates errors, in which case no
write has happened yet). -/
def post_process_wasm (validate_import_section : Module → Except String Unit)
    (disk : Option Module) (optimized_code : String)
    (skip_wasm_validation : Bool) (max_memory_pages : Nat) :
    Except String Unit × Option Module :=
  match load_module disk optimized_code with
  | Except.error e =>
    (Except.error ("Loading of optimized wasm failed: " ++ e), disk)
  | Except.ok module =>
    let module := strip_exports module
    match ensure_maximum_memory_pages module max_memory_pages with
    | Except.error e => (Except.error e, disk)
    | Except.ok module =>
      let module := strip_custom_sections module
      let validated : Except String Unit :=
        if !skip_wasm_validation then validate_import_section module
        else Except.ok ()
      match validated with
      | Except.error e => (Except.error e, disk)
      | Except.ok () =>
        -- parity_wasm::serialize_to_file(optimized_code, module)
        (Except.ok (), some module)

/-! ## `invoke_cargo_and_scan_for_error`

The combined stdout/stderr stream of the child is a byte list; the Rust
loop reads it one byte at a time into a sliding `VecDeque` window of
capacity `missing_main_err.len()`, forwarding popped bytes to stderr. -/

/-- The diagnostic signature `"error[E0601]".as_bytes()`. -/
def missing_main_err : List Nat := "error[E0601]".data.map Char.toNat

/-- The `anyhow!` message returned when the signature is found. -/
def missing_no_main_error : String := "missing `no_main` attribute"

/-- One iteration of the inner `for byte in ...` body: push the byte into
the window; if the window now exceeds the signature length, pop the
oldest byte and write it to stderr.  Returns the new window and the new
stderr transcript. -/
def scan_step (err_buf stderr_out : List Nat) (byte : Nat) :
    List Nat × List Nat :=
  let err_buf := err_buf ++ [byte]
  if missing_main_err.length < err_buf.length then
    (err_buf.tail, stderr_out ++ err_buf.take 1)
  else
    (err_buf, stderr_out)

/-- The read loop of `invoke_cargo_and_scan_for_error` over the remaining
stream: after each byte the window is compared with the signature; on
equality the dedicated error is returned (reading stops).  On
end-of-stream the remaining window bytes are flushed to stderr and the
function returns `Ok` — the child's exit status is never consulted.
On success the returned value is the final stderr transcript. -/
def scan_loop (err_buf stderr_out : List Nat) :
    List Nat → Except String (List Nat)
  | [] => Except.ok (stderr_out ++ err_buf)
  | byte :: rest =>
    let s := scan_step err_buf stderr_out byte
    if s.1 = missing_main_err then Except.error missing_no_main_error
    else scan_loop s.1 s.2 rest

/-- Rust `invoke_cargo_and_scan_for_error`, as a function of the child's
combined output stream (the window starts empty). -/
def invoke_cargo_and_scan_for_error (stream : List Nat) :
    Except String (List Nat) :=
  scan_loop [] [] stream

/-! ## `BuildResult` and its machine-readable serialized form

The sibling `args` / `metadata` / `wasm_opt` modules define the field
types; they are modelled from the spec: build mode (debug / release /
verifiable), artifact selection (check-only / code-only / all),
verbosity, output type (human-readable vs JSON, with a `Default`), the
metadata artifact paths and the optimization sizes. -/

/-- Modelled from the spec: build mode from the `args` module (not part
of this crate file). -/
inductive BuildMode where
  | Debug | Release | Verifiable
deriving DecidableEq, Repr

/-- Modelled from the spec: artifact selection from the `args` module. -/
inductive BuildArtifacts where
  | CheckOnly | CodeOnly | All
deriving DecidableEq, Repr

/-- Modelled from the spec: verbosity from the `args` module. -/
inductive Verbosity where
  | Quiet | Default | Verbose
deriving DecidableEq, Repr

/-- Modelled from the spec: presentation output type from the `args`
module; `HumanReadable` is the `Default::default()` used by serde for a
field marked `skip_deserializing`. -/
inductive OutputType where
  | HumanReadable | Json
deriving DecidableEq, Repr

/-- Rust `Default::default()` for `OutputType`. -/
def OutputType.default : OutputType := OutputType.HumanReadable

/-- Modelled from the spec: `MetadataArtifacts` from the `metadata`
module — the two metadata artifact paths. -/
structure MetadataArtifacts where
  dest_metadata : String
  dest_bundle : String
deriving DecidableEq, Repr

/-- Modelled from the spec: `OptimizationResult` from the `wasm_opt`
module — original and optimized sizes (`f64` in Rust). -/
structure OptimizationResult where
  original_size : Float
  optimized_size : Float

/-- Rust `BuildResult`: result of the build process.  The `output_type` field
carries `#[serde(skip_serializing, skip_deserializing)]`. -/
structure BuildResult where
  dest_wasm : Option String
  metadata_result : Option MetadataArtifacts
  target_directory : String
  optimization_result : Option OptimizationResult
  build_mode : BuildMode
  build_artifact : BuildArtifacts
  verbosity : Verbosity
  image : Option String
  output_type : OutputType

/-- The machine-readable serialized form of a `BuildResult`: exactly the
fields the serde derive emits — every field except `output_type`, which
is marked `skip_serializing`. -/
structure SerializedBuildResult where
  dest_wasm : Option String
  metadata_result : Option MetadataArtifacts
  target_directory : String
  optimization_result : Option OptimizationResult
  build_mode : BuildMode
  build_artifact : BuildArtifacts
  verbosity : Verbosity
  image : Option String

/-- Rust `#[derive(Serialize)]` on `BuildResult` with
`#[serde(skip_serializing)]` on `output_type`. -/
def BuildResult.serialize (b : BuildResult) : SerializedBuildResult :=
  { dest_wasm := b.dest_wasm
    metadata_result := b.metadata_result
    target_directory := b.target_directory
    optimization_result := b.optimization_result
    build_mode := b.build_mode
    build_artifact := b.build_artifact
    verbosity := b.verbosity
    image := b.image }

/-- Rust `#[derive(Deserialize)]` on `BuildResult` with
`#[serde(skip_deserializing)]` on `output_type`: the skipped field is
filled with `Default::default()`. -/
def BuildResult.deserialize (s : SerializedBuildResult) : BuildResult :=
  { dest_wasm := s.dest_wasm
    metadata_result := s.metadata_result
    target_directory := s.target_directory
    optimization_result := s.optimization_result
    build_mode := s.build_mode
    build_artifact := s.build_artifact
    verbosity := s.verbosity
    image := s.image
    output_type := OutputType.default }

/-! ## `Fingerprint` and `local_build`

File-system state is explicit: the raw compiler artifact
(`crate_metadata.original_code`), the sidecar target file
(`crate_metadata.target_file_path`) and the final artifact
(`crate_metadata.dest_code`) are cells of a `World`.  External
collaborators — the linter, `cargo`, the hash function, the optimizer,
the `polkavm` linker — are parameters gathered in `BuildExternals`. -/

/-- Contents and modification time of a file on disk. -/
structure FileData where
  bytes : List Nat
  modified : Nat
deriving DecidableEq, Repr

/-- The final artifact file: a Wasm module for the module target or the
linked program blob for the RiscV target. -/
inductive DestFile where
  | wasm (m : Module)
  | riscv (bytes : List Nat)
deriving DecidableEq, Repr

/-- The file-system cells `local_build` reads and writes. -/
structure World where
  original_code : Option FileData
  target_file : Option String
  dest_code : Option DestFile
deriving DecidableEq, Repr

/-- Modelled from the spec: the two target backends from the `args`
module (`Target::Wasm`, `Target::RiscV`). -/
inductive Target where
  | wasm | riscv
deriving DecidableEq, Repr

/-- The paths of `CrateMetadata` that `local_build` and `Fingerprint`
use. -/
structure CrateMetadata where
  original_code : String
  dest_code : String
  target_file_path : String
  target_directory : String
deriving DecidableEq, Repr

/-- Rust `Fingerprint`: unique fingerprint for a file to detect whether it has
changed — path, blake2 content hash, modification time and the last-used
target read from the sidecar file.  Equality (the derived `PartialEq`)
requires all four fields to match. -/
structure Fingerprint where
  path : String
  hash : List Nat
  modified : Nat
  target : String
deriving DecidableEq, Repr

/-- Rust `Fingerprint::new`: `Ok(None)` when the compiled artifact does not
exist yet; otherwise its modification time and hashed bytes together
with the sidecar target string, whose read failure is fatal. -/
def Fingerprint.new (blake2_hash : List Nat → List Nat)
    (cm : CrateMetadata) (w : World) : Except String (Option Fingerprint) :=
  match w.original_code with
  | none => Except.ok none
  | some f =>
    match w.target_file with
    | none =>
      Except.error ("Cannot read " ++ cm.target_file_path ++
        ".\n A clean build will fix this.")
    | some t =>
      Except.ok (some
        { path := cm.original_code
          hash := blake2_hash f.bytes
          modified := f.modified
          target := t })

/-- Modelled from the spec: `OptimizationPasses` from the `wasm_opt`
module (the pass count setting), carried through unchanged. -/
abbrev OptimizationPasses := Nat

/-- Rust `WasmOptSettings` (from the `metadata` module): optimization settings
recorded in the build info. -/
structure WasmOptSettings where
  optimization_passes : OptimizationPasses
  keep_debug_symbols : Bool
deriving DecidableEq, Repr

/-- Rust `BuildInfo` (from the `metadata` module): toolchain, tool version,
build mode and optimizer settings. -/
structure BuildInfo where
  rust_toolchain : String
  cargo_contract_version : String
  build_mode : BuildMode
  wasm_opt_settings : WasmOptSettings
deriving DecidableEq, Repr

/-- The fields of `ExecuteArgs` that `local_build` destructures and uses. -/
structure ExecuteArgs where
  build_mode : BuildMode
  keep_debug_symbols : Bool
  skip_wasm_validation : Bool
  target : Target
  max_memory_pages : Nat
  optimization_passes : OptimizationPasses
deriving DecidableEq, Repr

/-- External collaborators of `local_build` (processes and sibling
crates), as functions on the explicit world. -/
structure BuildExternals where
  /-- The `blake2` crate's 256-bit digest. -/
  blake2_hash : List Nat → List Nat
  /-- `lint`: clippy (+ optional dylint) invocation. -/
  lint : Except String Unit
  /-- `check_buffer_size_invoke_cargo_clean`. -/
  check_buffer_size : World → Except String World
  /-- `exec_cargo_for_onchain_target(…, "build", …)`. -/
  cargo_build : World → Except String World
  /-- `Target::llvm_target()` (from the `args` module). -/
  llvm_target : Target → String
  /-- `util::rust_toolchain()`. -/
  rust_toolchain : Except String String
  /-- `Version::parse(VERSION)` for the running binary. -/
  parse_version : Except String String
  /-- `WasmOptHandler::optimize`: reads the raw artifact, produces the
  optimized module written to `dest_code`. -/
  wasm_opt : FileData → Except String Module
  /-- `polkavm_linker::program_from_elf`. -/
  riscv_link : List Nat → Except String (List Nat)
  /-- `validate_wasm::validate_import_section`. -/
  validate_import_section : Module → Except String Unit
  /-- `fs::metadata(dest).len()`: byte size of the serialized artifact. -/
  serialized_size : DestFile → Nat

/-- The externally visible steps `local_build` (and, downstream of it,
`execute`) can take, recorded as a trace. -/
inductive BuildAction where
  | lintStep
  | checkBufferSize
  | cargoBuild
  | writeTargetFile
  | removeStaleArtifacts
  | wasmOpt
  | postProcessWasm
  | riscvLink
  | generateMetadata
deriving DecidableEq, Repr

/-- The final-artifact cell viewed as a parseable Wasm module (a RiscV
blob or a missing file does not parse). -/
def dest_as_wasm_module : Option DestFile → Option Module
  | some (DestFile.wasm m) => some m
  | _ => none

/-- Rust `local_build`: build the contract on the host.  Lints, takes the
pre-build fingerprint, runs the buffer-size check and `cargo build`,
persists the target sidecar, takes the post-build fingerprint, and — when
the two fingerprints are equal and the final artifact still exists —
skips all remaining work, returning `None` for the optimization result.
Otherwise the stale artifacts are removed and the target-specific
optimize/post-process (Wasm) or link (RiscV) pipeline runs.  Returns the
Rust triple `(Option<OptimizationResult>, BuildInfo, PathBuf)` together
with the final world and the trace of steps taken. -/
def local_build (ext : BuildExternals) (cm : CrateMetadata)
    (args : ExecuteArgs) (w0 : World) :
    Except String ((Option OptimizationResult × BuildInfo × String) ×
      World × List BuildAction) := do
  -- We always want to lint first so we don't suppress any warnings when a
  -- build is skipped because of a matching fingerprint.
  let _ ← ext.lint
  let pre_fingerprint ← Fingerprint.new ext.blake2_hash cm w0
  let w1 ← ext.check_buffer_size w0
  let w2 ← ext.cargo_build w1
  -- We persist the latest target we used so we trigger a rebuild when we
  -- switch: fs::write(target_file_path, target.llvm_target())
  let w3 : World := { w2 with target_file := some (ext.llvm_target args.target) }
  let cargo_contract_version ← ext.parse_version
  let rust_toolchain ← ext.rust_toolchain
  let build_info : BuildInfo :=
    { rust_toolchain := rust_toolchain
      cargo_contract_version := cargo_contract_version
      build_mode := args.build_mode
      wasm_opt_settings :=
        { optimization_passes := args.optimization_passes
          keep_debug_symbols := args.keep_debug_symbols } }
  let post_fingerprint ← match ← Fingerprint.new ext.blake2_hash cm w3 with
    | some fp => pure fp
    | none =>
      Except.error ("Expected '" ++ cm.original_code ++
        "' to be generated by build")
  let trace0 := [BuildAction.lintStep, BuildAction.checkBufferSize,
    BuildAction.cargoBuild, BuildAction.writeTargetFile]
  if pre_fingerprint = some post_fingerprint ∧ w3.dest_code.isSome then
    -- Skipping Wasm optimization and metadata generation.
    return ((none, build_info, cm.dest_code), w3, trace0)
  -- remove build artifacts so we don't have anything stale lingering
  -- around (every target extension, including the current dest_code)
  let w4 : World := { w3 with dest_code := none }
  let original ← match w3.original_code with
    | some f => pure f
    | none =>
      Except.error ("No such file: '" ++ cm.original_code ++ "'")
  let original_size := Float.ofNat original.bytes.length / 1000.0
  match args.target with
  | Target.wasm => do
    let optimized ← ext.wasm_opt original
    let w5 : World := { w4 with dest_code := some (DestFile.wasm optimized) }
    let pp := post_process_wasm ext.validate_import_section
      (dest_as_wasm_module w5.dest_code) cm.dest_code
      args.skip_wasm_validation args.max_memory_pages
    let _ ← pp.1
    let w6 : World := { w5 with dest_code := pp.2.map DestFile.wasm }
    let dest ← match w6.dest_code with
      | some d => pure d
      | none => Except.error ("No such file: '" ++ cm.dest_code ++ "'")
    let optimized_size := Float.ofNat (ext.serialized_size dest) / 1000.0
    let optimization_result : OptimizationResult :=
      { original_size := original_size, optimized_size := optimized_size }
    return ((some optimization_result, build_info, cm.dest_code), w6,
      trace0 ++ [BuildAction.removeStaleArtifacts, BuildAction.wasmOpt,
        BuildAction.postProcessWasm])
  | Target.riscv => do
    let linked ← match ext.riscv_link original.bytes with
      | Except.ok l => pure l
      | Except.error err =>
        Except.error ("Failed to link polkavm program: " ++ err)
    let w5 : World := { w4 with dest_code := some (DestFile.riscv linked) }
    let dest ← match w5.dest_code with
      | some d => pure d
      | none => Except.error ("No such file: '" ++ cm.dest_code ++ "'")
    let optimized_size := Float.ofNat (ext.serialized_size dest) / 1000.0
    let optimization_result : OptimizationResult :=
      { original_size := original_size, optimized_size := optimized_size }
    return ((some optimization_result, build_info, cm.dest_code), w5,
      trace0 ++ [BuildAction.removeStaleArtifacts, BuildAction.riscvLink])

/-- A concrete instantiation of the external collaborators for the C1
witness: every external step succeeds and changes nothing. -/
def demo_externals : BuildExternals :=
  { blake2_hash := fun bytes => bytes
    lint := Except.ok ()
    check_buffer_size := fun w => Except.ok w
    cargo_build := fun w => Except.ok w
    llvm_target := fun _ => "wasm32-unknown-unknown"
    rust_toolchain := Except.ok "stable-x86_64-unknown-linux-gnu"
    parse_version := Except.ok "4.0.0"
    wasm_opt := fun _ => Except.ok (Module.mk [])
    riscv_link := fun bytes => Except.ok bytes
    validate_import_section := fun _ => Except.ok ()
    serialized_size := fun _ => 0 }

/-- The crate paths for the C1 witness. -/
def demo_crate_metadata : CrateMetadata :=
  { original_code := "target/ink/contract.wasm"
    dest_code := "target/ink/contract.polished.wasm"
    target_file_path := "target/ink/.target"
    target_directory := "target/ink" }

/-- The build arguments for the C1 witness. -/
def demo_args : ExecuteArgs :=
  { build_mode := BuildMode.Release
    keep_debug_symbols := false
    skip_wasm_validation := false
    target := Target.wasm
    max_memory_pages := DEFAULT_MAX_MEMORY_PAGES
    optimization_passes := 4 }

/-- The initial file system for the C1 witness: the raw artifact, the
sidecar target file and the final artifact all exist, and `cargo build`
reproduces the raw artifact byte-identically. -/
def demo_world : World :=
  { original_code := some { bytes := [0, 97, 115, 109], modified := 5 }
    target_file := some "wasm32-unknown-unknown"
    dest_code := some (DestFile.wasm (Module.mk [])) }

/-- The fingerprint both fingerprint computations produce in the C1
witness. -/
def demo_fingerprint : Fingerprint :=
  { path := "target/ink/contract.wasm"
    hash := [0, 97, 115, 109]
    modified := 5
    target := "wasm32-unknown-unknown" }

/-! ## Lemmas about `ensure_maximum_memory_pages` -/

theorem adjust_memory_entry_eq_none {p : Nat} :
    ∀ {entries : List ImportEntry},
    find_memory_type entries = none → adjust_memory_entry p entries = none := by
  intro entries
  induction entries with
  | nil => intro _; rfl
  | cons e rest ih =>
    intro h
    cases hx : e.external
    case memory memTy => simp [find_memory_type, hx] at h
    all_goals
      simp [find_memory_type, hx] at h
      simp [adjust_memory_entry, hx, ih h]

theorem adjust_memory_entry_within {p r : Nat} {mt : MemoryType} :
    ∀ {entries : List ImportEntry},
    find_memory_type entries = some mt → mt.maximum = some r → ¬ r > p →
    adjust_memory_entry p entries = some (Except.ok entries) := by
  intro entries
  induction entries with
  | nil => intro h; simp [find_memory_type] at h
  | cons e rest ih =>
    intro h hm hr
    cases hx : e.external
    case memory memTy =>
      simp [find_memory_type, hx] at h
      subst h
      simp [adjust_memory_entry, hx, hm, hr]
    all_goals
      simp [find_memory_type, hx] at h
      simp [adjust_memory_entry, hx, ih h hm hr, Except.map]

theorem adjust_memory_entry_exceeds {p r : Nat} {mt : MemoryType} :
    ∀ {entries : List ImportEntry},
    find_memory_type entries = some mt → mt.maximum = some r → r > p →
    adjust_memory_entry p entries = some (Except.error (pages_error r p)) := by
  intro entries
  induction entries with
  | nil => intro h; simp [find_memory_type] at h
  | cons e rest ih =>
    intro h hm hr
    cases hx : e.external
    case memory memTy =>
      simp [find_memory_type, hx] at h
      subst h
      simp [adjust_memory_entry, hx, hm, hr]
    all_goals
      simp [find_memory_type, hx] at h
      simp [adjust_memory_entry, hx, ih h hm hr, Except.map]

theorem adjust_memory_entry_rewrites {p : Nat} {mt : MemoryType} :
    ∀ {entries : List ImportEntry},
    memory_types entries = [mt] → mt.maximum = none →
    ∃ entries', adjust_memory_entry p entries = some (Except.ok entries') ∧
      memory_types entries' = [MemoryType.mk mt.initial (some p)] := by
  intro entries
  induction entries with
  | nil => intro h; simp [memory_types] at h
  | cons e rest ih =>
    intro h hm
    cases hx : e.external
    case memory memTy =>
      simp [memory_types, hx] at h
      obtain ⟨h1, h2⟩ := h
      subst h1
      refine ⟨{ e with external :=
        External.memory (MemoryType.new memTy.initial (some p)) } :: rest, ?_, ?_⟩
      · simp [adjust_memory_entry, hx, hm]
      · simp [memory_types, MemoryType.new, h2]
    all_goals
      simp [memory_types, hx] at h
      obtain ⟨rest', h1, h2⟩ := ih h hm
      refine ⟨e :: rest', ?_, ?_⟩
      · simp [adjust_memory_entry, hx, h1, Except.map]
      · simp [memory_types, hx, h2]

theorem adjust_sections_eq_none_no_import {p : Nat} :
    ∀ {secs : List Section},
    first_import_section secs = none → adjust_sections p secs = none := by
  intro secs
  induction secs with
  | nil => intro _; rfl
  | cons s rest ih =>
    intro h
    cases hs : s.import_entries with
    | some entries => simp [first_import_section, hs] at h
    | none =>
      simp [first_import_section, hs] at h
      simp [adjust_sections, hs, ih h]

theorem adjust_sections_eq_none_no_memory {p : Nat} {entries : List ImportEntry} :
    ∀ {secs : List Section},
    first_import_section secs = some entries →
    adjust_memory_entry p entries = none →
    adjust_sections p secs = none := by
  intro secs
  induction secs with
  | nil => intro h; simp [first_import_section] at h
  | cons s rest ih =>
    intro h ha
    cases hs : s.import_entries with
    | some entries0 =>
      simp [first_import_section, hs] at h
      subst h
      simp [adjust_sections, hs, ha]
    | none =>
      simp [first_import_section, hs] at h
      simp [adjust_sections, hs, ih h ha]

theorem adjust_sections_error {p : Nat} {entries : List ImportEntry} {e : String} :
    ∀ {secs : List Section},
    first_import_section secs = some entries →
    adjust_memory_entry p entries = some (Except.error e) →
    adjust_sections p secs = some (Except.error e) := by
  intro secs
  induction secs with
  | nil => intro h; simp [first_import_section] at h
  | cons s rest ih =>
    intro h ha
    cases hs : s.import_entries with
    | some entries0 =>
      simp [first_import_section, hs] at h
      subst h
      simp [adjust_sections, hs, ha, Except.map]
    | none =>
      simp [first_import_section, hs] at h
      simp [adjust_sections, hs, ih h ha, Except.map]

theorem adjust_sections_ok_same {p : Nat} {entries : List ImportEntry} :
    ∀ {secs : List Section},
    first_import_section secs = some entries →
    adjust_memory_entry p entries = some (Except.ok entries) →
    adjust_sections p secs = some (Except.ok secs) := by
  intro secs
  induction secs with
  | nil => intro h; simp [first_import_section] at h
  | cons s rest ih =>
    intro h ha
    cases hs : s.import_entries with
    | some entries0 =>
      simp [first_import_section, hs] at h
      subst h
      cases s
      case importSection entries1 =>
        simp [Section.import_entries] at hs
        subst hs
        simp [adjust_sections, Section.import_entries, ha, Except.map]
      all_goals simp [Section.import_entries] at hs
    | none =>
      simp [first_import_section, hs] at h
      simp [adjust_sections, hs, ih h ha, Except.map]

theorem adjust_sections_ok {p : Nat} {entries entries' : List ImportEntry} :
    ∀ {secs : List Section},
    first_import_section secs = some entries →
    adjust_memory_entry p entries = some (Except.ok entries') →
    ∃ secs', adjust_sections p secs = some (Except.ok secs') ∧
      first_import_section secs' = some entries' := by
  intro secs
  induction secs with
  | nil => intro h; simp [first_import_section] at h
  | cons s rest ih =>
    intro h ha
    cases hs : s.import_entries with
    | some entries0 =>
      simp [first_import_section, hs] at h
      subst h
      refine ⟨Section.importSection entries' :: rest, ?_, ?_⟩
      · simp [adjust_sections, hs, ha, Except.map]
      · simp [first_import_section, Section.import_entries]
    | none =>
      simp [first_import_section, hs] at h
      obtain ⟨secs', h1, h2⟩ := ih h ha
      refine ⟨s :: secs', ?_, ?_⟩
      · simp [adjust_sections, hs, h1, Except.map]
      · simp [first_import_section, hs, h2]

theorem find_memory_type_of_memory_types_single {mt : MemoryType} :
    ∀ {entries : List ImportEntry},
    memory_types entries = [mt] → find_memory_type entries = some mt := by
  intro entries
  induction entries with
  | nil => intro h; simp [memory_types] at h
  | cons e rest ih =>
    intro h
    cases hx : e.external
    case memory memTy =>
      simp [memory_types, hx] at h
      simp [find_memory_type, hx, h.1]
    all_goals
      simp [memory_types, hx] at h
      simp [find_memory_type, hx, ih h]

/-! ## Claims about `ensure_maximum_memory_pages` -/

/-- C4: For every module whose single imported memory declares no maximum
page count, `ensure_maximum_memory_pages` succeeds and rewrites that
memory type to have the configured ceiling (default 16 pages) as its
maximum while the initial page count is preserved unchanged. -/
theorem ensure_maximum_memory_pages_sets_missing_maximum
    (m : Module) (entries : List ImportEntry) (mt : MemoryType) (pages : Nat)
    (himp : first_import_section m.sections = some entries)
    (hsingle : memory_types entries = [mt])
    (hnomax : mt.maximum = none) :
    ∃ m', ensure_maximum_memory_pages m pages = Except.ok m' ∧
      ∃ entries', first_import_section m'.sections = some entries' ∧
        memory_types entries' = [MemoryType.mk mt.initial (some pages)] := by
  obtain ⟨entries', h1, h2⟩ := adjust_memory_entry_rewrites hsingle hnomax
  obtain ⟨secs', hs1, hs2⟩ := adjust_sections_ok himp h1
  exact ⟨{ m with sections := secs' },
    by simp [ensure_maximum_memory_pages, hs1], entries', hs2, h2⟩

/-- Witness for C4: a module importing a single memory with initial `2`
and no maximum is rewritten to maximum `DEFAULT_MAX_MEMORY_PAGES`. -/
theorem ensure_maximum_memory_pages_sets_missing_maximum_witness :
    first_import_section
        [Section.importSection
          [ImportEntry.mk "env" "memory" (External.memory (MemoryType.mk 2 none))]] =
      some [ImportEntry.mk "env" "memory" (External.memory (MemoryType.mk 2 none))] ∧
    memory_types
        [ImportEntry.mk "env" "memory" (External.memory (MemoryType.mk 2 none))] =
      [MemoryType.mk 2 none] ∧
    (MemoryType.mk 2 none).maximum = none ∧
    ∃ m', ensure_maximum_memory_pages
        (Module.mk [Section.importSection
          [ImportEntry.mk "env" "memory" (External.memory (MemoryType.mk 2 none))]])
        DEFAULT_MAX_MEMORY_PAGES = Except.ok m' ∧
      ∃ entries', first_import_section m'.sections = some entries' ∧
        memory_types entries' = [MemoryType.mk 2 (some DEFAULT_MAX_MEMORY_PAGES)] :=
  ⟨rfl, rfl, rfl,
    ensure_maximum_memory_pages_sets_missing_maximum
      (Module.mk [Section.importSection
        [ImportEntry.mk "env" "memory" (External.memory (MemoryType.mk 2 none))]])
      [ImportEntry.mk "env" "memory" (External.memory (MemoryType.mk 2 none))]
      (MemoryType.mk 2 none) DEFAULT_MAX_MEMORY_PAGES rfl rfl rfl⟩

/-- C5: For every module whose imported memory declares a maximum page
count strictly greater than the configured ceiling,
`ensure_maximum_memory_pages` fails with an error that contains both the
requested maximum and the allowed ceiling value. -/
theorem ensure_maximum_memory_pages_rejects_oversized
    (m : Module) (mt : MemoryType) (r pages : Nat)
    (hmem : m.memory_import = some mt)
    (hmax : mt.maximum = some r)
    (hover : r > pages) :
    ∃ s1 s2 s3, ensure_maximum_memory_pages m pages =
      Except.error (s1 ++ toString r ++ s2 ++ toString pages ++ s3) := by
  cases hfi : first_import_section m.sections with
  | none => simp [Module.memory_import, hfi] at hmem
  | some entries =>
    rw [Module.memory_import, hfi] at hmem
    simp only [Option.some_bind] at hmem
    have h1 := adjust_memory_entry_exceeds (p := pages) hmem hmax hover
    have h2 := adjust_sections_error hfi h1
    refine ⟨"The wasm module requires ",
      " pages. The maximum allowed number of pages is ", "", ?_⟩
    simp [ensure_maximum_memory_pages, h2, pages_error, String.append_assoc]

/-- Witness for C5: a module requesting a maximum of 17 pages against the
default ceiling of 16 is rejected with both values in the message. -/
theorem ensure_maximum_memory_pages_rejects_oversized_witness :
    (Module.mk [Section.importSection
        [ImportEntry.mk "env" "memory" (External.memory (MemoryType.mk 2 (some 17)))]]).memory_import
      = some (MemoryType.mk 2 (some 17)) ∧
    (MemoryType.mk 2 (some 17)).maximum = some 17 ∧
    17 > DEFAULT_MAX_MEMORY_PAGES ∧
    ∃ s1 s2 s3, ensure_maximum_memory_pages
        (Module.mk [Section.importSection
          [ImportEntry.mk "env" "memory" (External.memory (MemoryType.mk 2 (some 17)))]])
        DEFAULT_MAX_MEMORY_PAGES =
      Except.error (s1 ++ toString 17 ++ s2 ++ toString DEFAULT_MAX_MEMORY_PAGES ++ s3) :=
  ⟨rfl, rfl, by decide,
    ensure_maximum_memory_pages_rejects_oversized
      (Module.mk [Section.importSection
        [ImportEntry.mk "env" "memory" (External.memory (MemoryType.mk 2 (some 17)))]])
      (MemoryType.mk 2 (some 17)) 17 DEFAULT_MAX_MEMORY_PAGES rfl rfl (by decide)⟩

/-- C6: For every module that has no imported memory entry in its import
section, `ensure_maximum_memory_pages` fails with an error referencing
the missing `--import-memory` linker option. -/
theorem ensure_maximum_memory_pages_requires_memory_import
    (m : Module) (pages : Nat) (hmem : m.memory_import = none) :
    ∃ s1 s2, ensure_maximum_memory_pages m pages =
      Except.error (s1 ++ "--import-memory" ++ s2) := by
  refine ⟨"Memory import is not found. Is ", " specified in the linker args", ?_⟩
  cases hfi : first_import_section m.sections with
  | none =>
    simp [ensure_maximum_memory_pages, adjust_sections_eq_none_no_import hfi,
      memory_import_missing_error]
  | some entries =>
    rw [Module.memory_import, hfi] at hmem
    simp only [Option.some_bind] at hmem
    have h1 := adjust_memory_entry_eq_none (p := pages) hmem
    simp [ensure_maximum_memory_pages, adjust_sections_eq_none_no_memory hfi h1,
      memory_import_missing_error]

/-- Witness for C6: a module whose import section holds only a function
entry is rejected with the `--import-memory` message. -/
theorem ensure_maximum_memory_pages_requires_memory_import_witness :
    (Module.mk [Section.importSection
        [ImportEntry.mk "env" "f" (External.function 0)]]).memory_import = none ∧
    ∃ s1 s2, ensure_maximum_memory_pages
        (Module.mk [Section.importSection
          [ImportEntry.mk "env" "f" (External.function 0)]])
        DEFAULT_MAX_MEMORY_PAGES =
      Except.error (s1 ++ "--import-memory" ++ s2) :=
  ⟨rfl, ensure_maximum_memory_pages_requires_memory_import
    (Module.mk [Section.importSection
      [ImportEntry.mk "env" "f" (External.function 0)]])
    DEFAULT_MAX_MEMORY_PAGES rfl⟩

/-- C10: For every module whose imported memory already declares a
maximum page count less than or equal to the configured ceiling,
`ensure_maximum_memory_pages` succeeds and leaves the module entirely
unchanged — in particular a declared maximum exactly equal to the
ceiling is accepted, and neither the initial nor the maximum page count
is modified. -/
theorem ensure_maximum_memory_pages_accepts_within_limit
    (m : Module) (mt : MemoryType) (r pages : Nat)
    (hmem : m.memory_import = some mt)
    (hmax : mt.maximum = some r)
    (hle : r ≤ pages) :
    ensure_maximum_memory_pages m pages = Except.ok m := by
  cases hfi : first_import_section m.sections with
  | none => simp [Module.memory_import, hfi] at hmem
  | some entries =>
    rw [Module.memory_import, hfi] at hmem
    simp only [Option.some_bind] at hmem
    have h1 := adjust_memory_entry_within (p := pages) hmem hmax (by omega)
    have h2 := adjust_sections_ok_same hfi h1
    simp [ensure_maximum_memory_pages, h2]

/-- Witness for C10: a module with a declared maximum exactly equal to
the default ceiling of 16 pages is returned unchanged. -/
theorem ensure_maximum_memory_pages_accepts_within_limit_witness :
    (Module.mk [Section.importSection
        [ImportEntry.mk "env" "memory" (External.memory (MemoryType.mk 2 (some 16)))]]).memory_import
      = some (MemoryType.mk 2 (some 16)) ∧
    (MemoryType.mk 2 (some 16)).maximum = some 16 ∧
    16 ≤ DEFAULT_MAX_MEMORY_PAGES ∧
    ensure_maximum_memory_pages
        (Module.mk [Section.importSection
          [ImportEntry.mk "env" "memory" (External.memory (MemoryType.mk 2 (some 16)))]])
        DEFAULT_MAX_MEMORY_PAGES =
      Except.ok (Module.mk [Section.importSection
        [ImportEntry.mk "env" "memory" (External.memory (MemoryType.mk 2 (some 16)))]]) :=
  ⟨rfl, rfl, by decide,
    ensure_maximum_memory_pages_accepts_within_limit
      (Module.mk [Section.importSection
        [ImportEntry.mk "env" "memory" (External.memory (MemoryType.mk 2 (some 16)))]])
      (MemoryType.mk 2 (some 16)) 16 DEFAULT_MAX_MEMORY_PAGES rfl rfl (by decide)⟩

/-! ## Claims about `strip_exports` and `strip_custom_sections` -/

theorem strip_exports_sections_spec {es : List ExportEntry} :
    ∀ {secs : List Section},
    first_export_section secs = some es →
    first_export_section (strip_exports_sections secs) =
      some (es.filter export_retained) := by
  intro secs
  induction secs with
  | nil => intro h; simp [first_export_section] at h
  | cons s rest ih =>
    intro h
    cases hs : s.export_entries with
    | some entries0 =>
      simp [first_export_section, hs] at h
      subst h
      cases s
      case exportSection entries1 =>
        simp [Section.export_entries] at hs
        subst hs
        simp [strip_exports_sections, Section.export_entries, first_export_section]
      all_goals simp [Section.export_entries] at hs
    | none =>
      simp [first_export_section, hs] at h
      simp [strip_exports_sections, hs, first_export_section, ih h]

theorem export_retained_iff (e : ExportEntry) :
    export_retained e = true ↔
      ((∃ i, e.internal = Internal.function i) ∧
        (e.field = "call" ∨ e.field = "deploy")) := by
  cases h : e.internal <;> simp [export_retained, h]

/-- C7: After `strip_exports` runs on any module with an export section,
the remaining export entries are exactly those that are function exports
named `call` or `deploy`; every other export (globals, memories, tables,
other functions) is removed. -/
theorem strip_exports_retains_only_call_and_deploy
    (m : Module) (es : List ExportEntry)
    (h : first_export_section m.sections = some es) :
    ∃ es', first_export_section (strip_exports m).sections = some es' ∧
      ∀ e : ExportEntry, e ∈ es' ↔
        (e ∈ es ∧ (∃ i, e.internal = Internal.function i) ∧
          (e.field = "call" ∨ e.field = "deploy")) := by
  refine ⟨es.filter export_retained, strip_exports_sections_spec h, ?_⟩
  intro e
  rw [List.mem_filter, export_retained_iff]

/-- Witness for C7: a module exporting `{call, deploy, memory, extra_fn}`
ends with exactly `{call, deploy}`. -/
theorem strip_exports_retains_only_call_and_deploy_witness :
    first_export_section
        [Section.exportSection
          [ExportEntry.mk "call" (Internal.function 0),
           ExportEntry.mk "deploy" (Internal.function 1),
           ExportEntry.mk "memory" (Internal.memory 0),
           ExportEntry.mk "extra_fn" (Internal.function 2)]] =
      some [ExportEntry.mk "call" (Internal.function 0),
            ExportEntry.mk "deploy" (Internal.function 1),
            ExportEntry.mk "memory" (Internal.memory 0),
            ExportEntry.mk "extra_fn" (Internal.function 2)] ∧
    (∃ es', first_export_section
        (strip_exports (Module.mk
          [Section.exportSection
            [ExportEntry.mk "call" (Internal.function 0),
             ExportEntry.mk "deploy" (Internal.function 1),
             ExportEntry.mk "memory" (Internal.memory 0),
             ExportEntry.mk "extra_fn" (Internal.function 2)]])).sections = some es' ∧
      ∀ e : ExportEntry, e ∈ es' ↔
        (e ∈ [ExportEntry.mk "call" (Internal.function 0),
              ExportEntry.mk "deploy" (Internal.function 1),
              ExportEntry.mk "memory" (Internal.memory 0),
              ExportEntry.mk "extra_fn" (Internal.function 2)] ∧
          (∃ i, e.internal = Internal.function i) ∧
          (e.field = "call" ∨ e.field = "deploy"))) ∧
    first_export_section
        (strip_exports (Module.mk
          [Section.exportSection
            [ExportEntry.mk "call" (Internal.function 0),
             ExportEntry.mk "deploy" (Internal.function 1),
             ExportEntry.mk "memory" (Internal.memory 0),
             ExportEntry.mk "extra_fn" (Internal.function 2)]])).sections =
      some [ExportEntry.mk "call" (Internal.function 0),
            ExportEntry.mk "deploy" (Internal.function 1)] :=
  ⟨rfl,
    strip_exports_retains_only_call_and_deploy
      (Module.mk
        [Section.exportSection
          [ExportEntry.mk "call" (Internal.function 0),
           ExportEntry.mk "deploy" (Internal.function 1),
           ExportEntry.mk "memory" (Internal.memory 0),
           ExportEntry.mk "extra_fn" (Internal.function 2)]])
      [ExportEntry.mk "call" (Internal.function 0),
       ExportEntry.mk "deploy" (Internal.function 1),
       ExportEntry.mk "memory" (Internal.memory 0),
       ExportEntry.mk "extra_fn" (Internal.function 2)] rfl,
    by decide⟩

theorem section_retained_iff (s : Section) :
    section_retained s = true ↔
      ((∀ payload, s ≠ Section.reloc payload) ∧
        (∀ name payload, s = Section.custom name payload → name = "name")) := by
  cases s <;> simp [section_retained]

/-- C8: `strip_custom_sections` removes from the module every relocation
section and every custom section whose name is not `"name"`, and keeps
all other sections (including a custom section named `"name"`)
unchanged, in order. -/
theorem strip_custom_sections_spec (m : Module) :
    (∀ s : Section, s ∈ (strip_custom_sections m).sections ↔
      (s ∈ m.sections ∧ (∀ payload, s ≠ Section.reloc payload) ∧
        (∀ name payload, s = Section.custom name payload → name = "name"))) ∧
    List.Sublist (strip_custom_sections m).sections m.sections := by
  constructor
  · intro s
    rw [show (strip_custom_sections m).sections =
      m.sections.filter section_retained from rfl]
    rw [List.mem_filter, section_retained_iff]
  · exact List.filter_sublist _

/-- Witness for C8: on a module with a reloc section, a `"name"` custom
section, another custom section and a code section, exactly the reloc
and the non-`"name"` custom section are removed. -/
theorem strip_custom_sections_spec_witness :
    (∀ s : Section, s ∈ (strip_custom_sections (Module.mk
        [Section.reloc [1], Section.custom "name" [2],
         Section.custom "producers" [3], Section.codeSection [4]])).sections ↔
      (s ∈ [Section.reloc [1], Section.custom "name" [2],
            Section.custom "producers" [3], Section.codeSection [4]] ∧
        (∀ payload, s ≠ Section.reloc payload) ∧
        (∀ name payload, s = Section.custom name payload → name = "name"))) ∧
    List.Sublist (strip_custom_sections (Module.mk
        [Section.reloc [1], Section.custom "name" [2],
         Section.custom "producers" [3], Section.codeSection [4]])).sections
      [Section.reloc [1], Section.custom "name" [2],
       Section.custom "producers" [3], Section.codeSection [4]] :=
  strip_custom_sections_spec (Module.mk
    [Section.reloc [1], Section.custom "name" [2],
     Section.custom "producers" [3], Section.codeSection [4]])

/-! ## Claim about `post_process_wasm` -/

/-- C2: `post_process_wasm` serializes the module back to the artifact
path only after export pruning, memory-limit enforcement, custom-section
stripping and (unless skipped) import validation have all succeeded in
memory; if any of these steps fails, the on-disk artifact file is left
unchanged. -/
theorem post_process_wasm_writes_only_on_success
    (validate : Module → Except String Unit) (disk : Option Module)
    (path : String) (skip : Bool) (pages : Nat) :
    (∀ e, (post_process_wasm validate disk path skip pages).1 = Except.error e →
      (post_process_wasm validate disk path skip pages).2 = disk) ∧
    ((post_process_wasm validate disk path skip pages).1 = Except.ok () →
      ∃ m0 m1, load_module disk path = Except.ok m0 ∧
        ensure_maximum_memory_pages (strip_exports m0) pages = Except.ok m1 ∧
        (skip = false → validate (strip_custom_sections m1) = Except.ok ()) ∧
        (post_process_wasm validate disk path skip pages).2 =
          some (strip_custom_sections m1)) := by
  unfold post_process_wasm
  cases hload : load_module disk path with
  | error e0 => simp
  | ok m0 =>
    cases hens : ensure_maximum_memory_pages (strip_exports m0) pages with
    | error e1 => simp [hens]
    | ok m1 =>
      cases hskip : skip with
      | true => simp [hens]
      | false =>
        cases hval : validate (strip_custom_sections m1) with
        | error e2 => simp [hens, hval]
        | ok u => cases u; simp [hens, hval]

/-- Witness for C2: on a module with no memory import, the pipeline fails
at memory-limit enforcement and the on-disk artifact is unchanged; the
theorem's frame part applied at that concrete input. -/
theorem post_process_wasm_writes_only_on_success_witness :
    (post_process_wasm (fun _ => Except.ok ())
        (some (Module.mk [Section.importSection
          [ImportEntry.mk "env" "f" (External.function 0)]]))
        "contract.wasm" false DEFAULT_MAX_MEMORY_PAGES).1 =
      Except.error memory_import_missing_error ∧
    (post_process_wasm (fun _ => Except.ok ())
        (some (Module.mk [Section.importSection
          [ImportEntry.mk "env" "f" (External.function 0)]]))
        "contract.wasm" false DEFAULT_MAX_MEMORY_PAGES).2 =
      some (Module.mk [Section.importSection
        [ImportEntry.mk "env" "f" (External.function 0)]]) :=
  ⟨rfl,
    (post_process_wasm_writes_only_on_success (fun _ => Except.ok ())
      (some (Module.mk [Section.importSection
        [ImportEntry.mk "env" "f" (External.function 0)]]))
      "contract.wasm" false DEFAULT_MAX_MEMORY_PAGES).1
      memory_import_missing_error rfl⟩

/-! ## Claim about `BuildResult` serialization -/

/-- C9: For every `BuildResult` value, serializing it to the
machine-readable form and deserializing that form yields a `BuildResult`
equal field-for-field to the original in every field except the
presentation-only `output_type` field, which is never part of the
serialized form. -/
theorem build_result_roundtrip (b : BuildResult) :
    ((BuildResult.deserialize (BuildResult.serialize b)).dest_wasm = b.dest_wasm ∧
      (BuildResult.deserialize (BuildResult.serialize b)).metadata_result =
        b.metadata_result ∧
      (BuildResult.deserialize (BuildResult.serialize b)).target_directory =
        b.target_directory ∧
      (BuildResult.deserialize (BuildResult.serialize b)).optimization_result =
        b.optimization_result ∧
      (BuildResult.deserialize (BuildResult.serialize b)).build_mode = b.build_mode ∧
      (BuildResult.deserialize (BuildResult.serialize b)).build_artifact =
        b.build_artifact ∧
      (BuildResult.deserialize (BuildResult.serialize b)).verbosity = b.verbosity ∧
      (BuildResult.deserialize (BuildResult.serialize b)).image = b.image) ∧
    ∀ ot : OutputType,
      BuildResult.serialize { b with output_type := ot } = BuildResult.serialize b :=
  ⟨⟨rfl, rfl, rfl, rfl, rfl, rfl, rfl, rfl⟩, fun _ => rfl⟩

/-- Witness for C9: the roundtrip applied at a concrete `BuildResult`
(mirroring the crate's own serialization sanity-check fixture). -/
theorem build_result_roundtrip_witness :
    ((BuildResult.deserialize (BuildResult.serialize
        (BuildResult.mk (some "/path/to/contract.wasm")
          (some (MetadataArtifacts.mk "/path/to/contract.json"
            "/path/to/contract.contract"))
          "/path/to/target"
          (some (OptimizationResult.mk 64.0 32.0))
          BuildMode.Debug BuildArtifacts.All Verbosity.Quiet none
          OutputType.Json))).dest_wasm = some "/path/to/contract.wasm") ∧
    ∀ ot : OutputType,
      BuildResult.serialize
        { BuildResult.mk (some "/path/to/contract.wasm")
            (some (MetadataArtifacts.mk "/path/to/contract.json"
              "/path/to/contract.contract"))
            "/path/to/target"
            (some (OptimizationResult.mk 64.0 32.0))
            BuildMode.Debug BuildArtifacts.All Verbosity.Quiet none
            OutputType.Json with output_type := ot } =
      BuildResult.serialize
        (BuildResult.mk (some "/path/to/contract.wasm")
          (some (MetadataArtifacts.mk "/path/to/contract.json"
            "/path/to/contract.contract"))
          "/path/to/target"
          (some (OptimizationResult.mk 64.0 32.0))
          BuildMode.Debug BuildArtifacts.All Verbosity.Quiet none
          OutputType.Json) :=
  ⟨(build_result_roundtrip
      (BuildResult.mk (some "/path/to/contract.wasm")
        (some (MetadataArtifacts.mk "/path/to/contract.json"
          "/path/to/contract.contract"))
        "/path/to/target"
        (some (OptimizationResult.mk 64.0 32.0))
        BuildMode.Debug BuildArtifacts.All Verbosity.Quiet none
        OutputType.Json)).1.1,
    (build_result_roundtrip
      (BuildResult.mk (some "/path/to/contract.wasm")
        (some (MetadataArtifacts.mk "/path/to/contract.json"
          "/path/to/contract.contract"))
        "/path/to/target"
        (some (OptimizationResult.mk 64.0 32.0))
        BuildMode.Debug BuildArtifacts.All Verbosity.Quiet none
        OutputType.Json)).2⟩

/-! ## Lemmas about the subprocess output scanner -/

theorem take_one_append_tail {l : List Nat} (h : l ≠ []) :
    l.take 1 ++ l.tail = l := by
  cases l with
  | nil => simp at h
  | cons a t => simp

/-- The three invariants of one scanner step: the window is a suffix of
the previous window extended by the byte; stderr plus window together
hold exactly the bytes seen so far; the window never exceeds the
signature length. -/
theorem scan_step_spec (buf out : List Nat) (b : Nat) :
    (scan_step buf out b).1 <:+ buf ++ [b] ∧
    (scan_step buf out b).2 ++ (scan_step buf out b).1 = out ++ (buf ++ [b]) ∧
    (buf.length ≤ missing_main_err.length →
      (scan_step buf out b).1.length ≤ missing_main_err.length) := by
  unfold scan_step
  by_cases h : missing_main_err.length < (buf ++ [b]).length
  · rw [if_pos h]
    refine ⟨List.tail_suffix _, ?_, ?_⟩
    · rw [List.append_assoc, take_one_append_tail (by simp)]
    · intro hb
      simp only [List.length_tail, List.length_append, List.length_cons,
        List.length_nil]
      omega
  · rw [if_neg h]
    refine ⟨List.suffix_refl _, rfl, fun _ => ?_⟩
    simp only [List.length_append, List.length_cons, List.length_nil] at h ⊢
    omega

/-- Soundness: if the loop reports the dedicated error, the signature
occurs contiguously in the window followed by the unread stream. -/
theorem scan_loop_error_sound {e : String} :
    ∀ (stream buf out : List Nat),
    scan_loop buf out stream = Except.error e →
    missing_main_err <:+: buf ++ stream := by
  intro stream
  induction stream with
  | nil => intro buf out h; simp [scan_loop] at h
  | cons b rest ih =>
    intro buf out h
    simp only [scan_loop] at h
    by_cases hm : (scan_step buf out b).1 = missing_main_err
    · have hsuf := (scan_step_spec buf out b).1
      rw [hm] at hsuf
      have hinf : missing_main_err <:+: (buf ++ [b]) ++ rest :=
        hsuf.isInfix.trans ⟨[], rest, by simp⟩
      simpa [List.append_assoc] using hinf
    · rw [if_neg hm] at h
      have hrec := ih (scan_step buf out b).1 (scan_step buf out b).2 h
      obtain ⟨u, hu⟩ := (scan_step_spec buf out b).1
      have hstep : (scan_step buf out b).1 ++ rest <:+ (buf ++ [b]) ++ rest :=
        ⟨u, by rw [← List.append_assoc, hu]⟩
      have hinf := hrec.trans hstep.isInfix
      simpa [List.append_assoc] using hinf

/-- Completeness: whenever the signature occurs contiguously in the
window followed by the stream (and the window itself is not already a
missed full match), the loop reports the dedicated error. -/
theorem scan_loop_finds_signature :
    ∀ (stream buf out : List Nat),
    buf.length ≤ missing_main_err.length →
    buf ≠ missing_main_err →
    missing_main_err <:+: buf ++ stream →
    scan_loop buf out stream = Except.error missing_no_main_error := by
  intro stream
  induction stream with
  | nil =>
    intro buf out hlen hne hinf
    exfalso
    apply hne
    rw [List.append_nil] at hinf
    have h1 := hinf.sublist.length_le
    exact (hinf.sublist.eq_of_length (le_antisymm h1 hlen)).symm
  | cons b rest ih =>
    intro buf out hlen hne hinf
    simp only [scan_loop]
    by_cases hm : (scan_step buf out b).1 = missing_main_err
    · rw [if_pos hm]
    · rw [if_neg hm]
      apply ih _ _ ((scan_step_spec buf out b).2.2 hlen) hm
      unfold scan_step
      by_cases hp : missing_main_err.length < (buf ++ [b]).length
      · rw [if_pos hp]
        have hblen : buf.length = missing_main_err.length := by
          simp only [List.length_append, List.length_cons, List.length_nil] at hp
          omega
        cases buf with
        | nil =>
          exfalso
          rw [List.length_nil] at hblen
          have : missing_main_err ≠ [] := by decide
          exact this (List.eq_nil_of_length_eq_zero hblen.symm)
        | cons c buf' =>
          obtain ⟨u, v, huv⟩ := hinf
          cases u with
          | nil =>
            exfalso
            apply hne
            simp only [List.nil_append] at huv
            exact (List.append_inj_left huv (by
              rw [← hblen])).symm
          | cons a u' =>
            simp only [List.cons_append] at huv
            injection huv with h1 h2
            exact ⟨u', v, by simpa using h2⟩
      · rw [if_neg hp]
        simpa [List.append_assoc] using hinf

/-- No match: the loop reaches end-of-stream, flushes the window and
returns success, having forwarded every byte to stderr. -/
theorem scan_loop_no_match_ok :
    ∀ (stream buf out : List Nat),
    ¬ missing_main_err <:+: buf ++ stream →
    scan_loop buf out stream = Except.ok (out ++ buf ++ stream) := by
  intro stream
  induction stream with
  | nil => intro buf out h; simp [scan_loop]
  | cons b rest ih =>
    intro buf out h
    simp only [scan_loop]
    have hm : (scan_step buf out b).1 ≠ missing_main_err := by
      intro hc
      apply h
      have hsuf := (scan_step_spec buf out b).1
      rw [hc] at hsuf
      have hinf : missing_main_err <:+: (buf ++ [b]) ++ rest :=
        hsuf.isInfix.trans ⟨[], rest, by simp⟩
      simpa [List.append_assoc] using hinf
    rw [if_neg hm]
    have hrec : ¬ missing_main_err <:+: (scan_step buf out b).1 ++ rest := by
      intro hc
      apply h
      obtain ⟨u, hu⟩ := (scan_step_spec buf out b).1
      have hstep : (scan_step buf out b).1 ++ rest <:+ (buf ++ [b]) ++ rest :=
        ⟨u, by rw [← List.append_assoc, hu]⟩
      have hinf := hc.trans hstep.isInfix
      simpa [List.append_assoc] using hinf
    rw [ih _ _ hrec, (scan_step_spec buf out b).2.1]
    simp

/-- A signature with one byte altered does not contain the signature. -/
theorem altered_signature_no_match (i b : Nat)
    (hi : i < missing_main_err.length) (hb : b ≠ missing_main_err[i]) :
    ¬ missing_main_err <:+: missing_main_err.set i b := by
  intro h
  have hlen : missing_main_err.length = (missing_main_err.set i b).length :=
    (List.length_set _ _ _).symm
  have heq := h.sublist.eq_of_length hlen
  apply hb
  have h1 := congrArg (fun l => l[i]?) heq
  simp only [List.getElem?_eq_getElem hi] at h1
  rw [List.getElem?_set_self' , List.getElem?_eq_getElem hi] at h1
  simpa using h1.symm

/-- C3: The subprocess output scanner returns its dedicated
`missing no_main attribute` error if and only if the combined output
byte stream contains the exact diagnostic signature bytes as a contiguous
subsequence; it triggers at most once, stopping at the first match (any
continuation of the stream past a match leaves the outcome unchanged); a
stream in which one signature byte is altered never triggers it; and on
end-of-stream without a match it flushes the remaining window bytes to
stderr (the success value is the full relayed transcript) and returns
success without consulting the child's exit status. -/
theorem invoke_cargo_and_scan_for_error_spec (stream : List Nat) :
    ((invoke_cargo_and_scan_for_error stream =
        Except.error missing_no_main_error) ↔
      missing_main_err <:+: stream) ∧
    (¬ missing_main_err <:+: stream →
      invoke_cargo_and_scan_for_error stream = Except.ok stream) ∧
    (∀ tail, missing_main_err <:+: stream →
      invoke_cargo_and_scan_for_error (stream ++ tail) =
        Except.error missing_no_main_error) ∧
    (∀ i b, ∀ hi : i < missing_main_err.length, b ≠ missing_main_err[i] →
      invoke_cargo_and_scan_for_error (missing_main_err.set i b) =
        Except.ok (missing_main_err.set i b)) := by
  have hempty : ([] : List Nat) ≠ missing_main_err := by decide
  refine ⟨⟨fun h => ?_, fun h => ?_⟩, fun h => ?_, fun tail h => ?_, fun i b hi hb => ?_⟩
  · simpa using scan_loop_error_sound stream [] [] h
  · exact scan_loop_finds_signature stream [] [] (by simp) hempty (by simpa using h)
  · simpa using scan_loop_no_match_ok stream [] [] (by simpa using h)
  · refine scan_loop_finds_signature (stream ++ tail) [] [] (by simp) hempty ?_
    simpa using h.trans ⟨[], tail, by simp⟩
  · have hni := altered_signature_no_match i b hi hb
    simpa using scan_loop_no_match_ok (missing_main_err.set i b) [] [] (by simpa using hni)

/-- Witness for C3: the unsplit signature itself triggers the dedicated
error; prepending it to other output triggers it as well; altering byte 0
of the signature yields success. -/
theorem invoke_cargo_and_scan_for_error_spec_witness :
    invoke_cargo_and_scan_for_error missing_main_err =
      Except.error missing_no_main_error ∧
    invoke_cargo_and_scan_for_error (missing_main_err ++ [10, 10]) =
      Except.error missing_no_main_error ∧
    invoke_cargo_and_scan_for_error (missing_main_err.set 0 102) =
      Except.ok (missing_main_err.set 0 102) :=
  ⟨(invoke_cargo_and_scan_for_error_spec missing_main_err).1.mpr
      (List.infix_refl _),
    (invoke_cargo_and_scan_for_error_spec missing_main_err).2.2.1 [10, 10]
      (List.infix_refl _),
    (invoke_cargo_and_scan_for_error_spec missing_main_err).2.2.2 0 102
      (by decide) (by decide)⟩

/-! ## Claim about `local_build` -/

/-- C1: For every build where the pre-compilation fingerprint exists,
equals the post-compilation fingerprint (equality requiring all four
fields — path, content digest, modified timestamp, target identifier —
to match), and the final destination artifact file exists, `local_build`
skips optimization, post-processing and metadata generation entirely,
returning no `OptimizationResult`. -/
theorem local_build_skips_when_fingerprint_unchanged
    (ext : BuildExternals) (cm : CrateMetadata) (args : ExecuteArgs)
    (w0 w1 w2 : World) (fp fp' : Fingerprint) (tc ver : String)
    (hlint : ext.lint = Except.ok ())
    (hbuf : ext.check_buffer_size w0 = Except.ok w1)
    (hcargo : ext.cargo_build w1 = Except.ok w2)
    (hver : ext.parse_version = Except.ok ver)
    (htool : ext.rust_toolchain = Except.ok tc)
    (hpre : Fingerprint.new ext.blake2_hash cm w0 = Except.ok (some fp))
    (hpost : Fingerprint.new ext.blake2_hash cm
      { w2 with target_file := some (ext.llvm_target args.target) } =
        Except.ok (some fp'))
    (hpath : fp.path = fp'.path) (hhash : fp.hash = fp'.hash)
    (hmod : fp.modified = fp'.modified) (htarget : fp.target = fp'.target)
    (hdest : w2.dest_code.isSome = true) :
    ∃ bi tr,
      local_build ext cm args w0 =
        Except.ok ((none, bi, cm.dest_code),
          { w2 with target_file := some (ext.llvm_target args.target) }, tr) ∧
      BuildAction.wasmOpt ∉ tr ∧ BuildAction.postProcessWasm ∉ tr ∧
      BuildAction.riscvLink ∉ tr ∧ BuildAction.removeStaleArtifacts ∉ tr ∧
      BuildAction.generateMetadata ∉ tr := by
  have hfp : fp = fp' := by
    cases fp; cases fp'; simp_all
  subst hfp
  refine ⟨BuildInfo.mk tc ver args.build_mode
      (WasmOptSettings.mk args.optimization_passes args.keep_debug_symbols),
    [BuildAction.lintStep, BuildAction.checkBufferSize, BuildAction.cargoBuild,
      BuildAction.writeTargetFile], ?_, by decide, by decide, by decide,
    by decide, by decide⟩
  simp only [local_build, bind, Except.bind, pure, Except.pure,
    hlint, hbuf, hcargo, hver, htool, hpre, hpost]
  simp [hdest]

/-- Witness for C1: on a build whose compiler run reproduces the raw
artifact byte-for-byte, the skip branch is taken: no optimization
result, no optimize/post-process/link step in the trace. -/
theorem local_build_skips_when_fingerprint_unchanged_witness :
    Fingerprint.new demo_externals.blake2_hash demo_crate_metadata demo_world =
      Except.ok (some demo_fingerprint) ∧
    Fingerprint.new demo_externals.blake2_hash demo_crate_metadata
      { demo_world with
        target_file := some (demo_externals.llvm_target demo_args.target) } =
      Except.ok (some demo_fingerprint) ∧
    demo_world.dest_code.isSome = true ∧
    ∃ bi tr,
      local_build demo_externals demo_crate_metadata demo_args demo_world =
        Except.ok ((none, bi, demo_crate_metadata.dest_code),
          { demo_world with
            target_file := some (demo_externals.llvm_target demo_args.target) },
          tr) ∧
      BuildAction.wasmOpt ∉ tr ∧ BuildAction.postProcessWasm ∉ tr ∧
      BuildAction.riscvLink ∉ tr ∧ BuildAction.removeStaleArtifacts ∉ tr ∧
      BuildAction.generateMetadata ∉ tr :=
  ⟨rfl, rfl, rfl,
    local_build_skips_when_fingerprint_unchanged demo_externals
      demo_crate_metadata demo_args demo_world demo_world demo_world
      demo_fingerprint demo_fingerprint
      "stable-x86_64-unknown-linux-gnu" "4.0.0"
      rfl rfl rfl rfl rfl rfl rfl rfl rfl rfl rfl rfl⟩

end CargoContract
